import Mathlib

/-!
Verification of the trading-readiness and order-submission pipeline of
src/clob_client_fixed.rs (ClobClient): ensure_trading_ready (balance,
allowance and approval checks, branching on whether the proxy wallet is
a smart contract) and submit_order (simulate vs live mode, maker/taker
to price/size translation, HTTP response interpretation).

Modelling conventions:
- Machine integers (U256, u128) are modelled as Nat; comparisons and
  arithmetic in the source never overflow except where noted.
- The chain is modelled in its happy path: every RPC read returns the
  value recorded in ChainState and every submitted transaction is
  confirmed with its standard effect (approve sets the allowance to the
  approved amount, setApprovalForAll sets the operator flag).  RPC
  failures propagate as errors in the source and are outside every claim.
- f64 computations are idealized: finite values are tracked as exact
  rationals, and a zero divisor produces the IEEE non-finite results
  (inf for a positive dividend, NaN for 0/0).  At every concrete input
  appearing below, the real f64 result rounds to the same 6-decimal
  string as the exact rational.
- ClobOrder is declared in src/wallet/signer.rs, which is not part of
  this repository snapshot; its fields are modelled from the spec's data
  model (token_id, maker_amount, taker_amount are 256-bit unsigned
  integers) and from their use in src/clob_client_fixed.rs (side is
  compared with the integer 0; maker/taker are converted with
  U256::as_u128, which panics above 2^128 - 1).
- Effects are made observable: readiness functions return the sequence
  of chain operations performed, and submit_order returns whether the
  network call happened, the built request, and the log lines a claim
  depends on.
-/

namespace Oe

/-- Largest value of a 256-bit unsigned integer; `U256::MAX` in the source. -/
def U256_MAX : ℕ := 2 ^ 256 - 1

/-- `MIN_ALLOWANCE` constant of the source: 1_000_000 smallest units ($1 at 6 decimals). -/
def MIN_ALLOWANCE : ℕ := 1000000

/-- `U256::as_u128`: returns the value when it fits in 128 bits and panics
(`none`) otherwise. -/
def as_u128 (n : ℕ) : Option ℕ :=
  if n < 2 ^ 128 then some n else none

/-- The order type consumed by `submit_order` (declared in
src/wallet/signer.rs, outside this snapshot; fields per the spec's data
model and their use in src/clob_client_fixed.rs). -/
structure ClobOrder where
  token_id : ℕ
  side : ℕ
  maker_amount : ℕ
  taker_amount : ℕ
deriving DecidableEq, Repr

/-- The part of the `ClobClient` configuration the verified operations can
observe: the `read_only` flag.  The provider, proxy address and executor
URL are fixed ambient parameters. -/
structure Client where
  read_only : Bool
deriving DecidableEq, Repr

/-- On-chain state visible to the client: USDC balance and allowance of the
proxy wallet (allowance towards the exchange), the ERC-1155
`isApprovedForAll(proxy, exchange)` flag, and the bytecode at the proxy
address. -/
structure ChainState where
  usdcBalance : ℕ
  usdcAllowance : ℕ
  ctfApproved : Bool
  proxyCode : List ℕ
deriving DecidableEq, Repr

/-- One chain operation performed by the readiness check, in order:
reads (balanceOf, getCode, allowance, isApprovedForAll) and write
transactions (approve, setApprovalForAll). -/
inductive ChainOp where
  | readBalance
  | readCode
  | readAllowance
  | readApproval
  | txApprove (amount : ℕ)
  | txSetApprovalForAll (approved : Bool)
deriving DecidableEq, Repr

/-- Whether a chain operation is a state-changing write transaction. -/
def ChainOp.isWrite : ChainOp → Bool
  | .txApprove _ => true
  | .txSetApprovalForAll _ => true
  | _ => false

/-- Errors produced by `ensure_trading_ready` (anyhow messages in the
source, carried here with their data). -/
inductive ReadinessError where
  | insufficientBalance (need actual : ℕ)
  | allowanceMissing
  | approvalMissing
deriving DecidableEq, Repr

/-- `Result<(), anyhow::Error>` of the readiness path. -/
inductive RResult where
  | ok
  | err (e : ReadinessError)
deriving DecidableEq, Repr

/-- Trace of one `ensure_trading_ready` call: its result, the chain
operations performed in order, and the post-call chain state. -/
structure ReadyTrace where
  result : RResult
  ops : List ChainOp
  state : ChainState
deriving DecidableEq, Repr

/-- `ensure_balance`: reads `balanceOf(proxy_wallet)` and fails when it is
below the required amount, reporting required and actual amounts. -/
def ensure_balance (st : ChainState) (required : ℕ) : RResult × List ChainOp :=
  if st.usdcBalance < required then
    (.err (.insufficientBalance required st.usdcBalance), [.readBalance])
  else
    (.ok, [.readBalance])

/-- `proxy_is_contract`: reads the bytecode at the proxy address; nonempty
bytecode means the proxy is a smart contract. -/
def proxy_is_contract (st : ChainState) : Bool × List ChainOp :=
  (!st.proxyCode.isEmpty, [.readCode])

/-- `ensure_safe_checks` (smart-contract branch): read-only verification
that the USDC allowance to the exchange is at least `MIN_ALLOWANCE` and
that the ERC-1155 approval flag is set; fails otherwise, never writes. -/
def ensure_safe_checks (st : ChainState) : RResult × List ChainOp :=
  if st.usdcAllowance < MIN_ALLOWANCE then
    (.err .allowanceMissing, [.readAllowance])
  else if st.ctfApproved = false then
    (.err .approvalMissing, [.readAllowance, .readApproval])
  else
    (.ok, [.readAllowance, .readApproval])

/-- `ensure_usdc_allowance` (plain-account branch): returns early when the
allowance already meets `MIN_ALLOWANCE`; otherwise submits
`approve(exchange, U256::MAX)` and awaits confirmation, after which the
allowance is `U256_MAX`. -/
def ensure_usdc_allowance (st : ChainState) : RResult × List ChainOp × ChainState :=
  if MIN_ALLOWANCE ≤ st.usdcAllowance then
    (.ok, [.readAllowance], st)
  else
    (.ok, [.readAllowance, .txApprove U256_MAX],
      { st with usdcAllowance := U256_MAX })

/-- `ensure_erc1155_approval` (plain-account branch): returns early when the
approval flag is already set; otherwise submits
`setApprovalForAll(exchange, true)` and awaits confirmation. -/
def ensure_erc1155_approval (st : ChainState) : RResult × List ChainOp × ChainState :=
  if st.ctfApproved then
    (.ok, [.readApproval], st)
  else
    (.ok, [.readApproval, .txSetApprovalForAll true],
      { st with ctfApproved := true })

/-- `ensure_trading_ready`: balance check first, then the contract test,
then either the read-only Safe checks or the self-remediating
plain-account checks.  The `Client` argument mirrors `&self`; note the
body never consults `read_only`. -/
def ensure_trading_ready (c : Client) (st : ChainState) (required_usdc : ℕ) : ReadyTrace :=
  match ensure_balance st required_usdc with
  | (.err e, ops0) => ⟨.err e, ops0, st⟩
  | (.ok, ops0) =>
    let pic := proxy_is_contract st
    if pic.1 then
      let sc := ensure_safe_checks st
      ⟨sc.1, ops0 ++ pic.2 ++ sc.2, st⟩
    else
      match ensure_usdc_allowance st with
      | (.err e, ops2, st1) => ⟨.err e, ops0 ++ pic.2 ++ ops2, st1⟩
      | (.ok, ops2, st1) =>
        let ea := ensure_erc1155_approval st1
        ⟨ea.1, ops0 ++ pic.2 ++ (ops2 ++ ea.2.1), ea.2.2⟩

/-- Idealized f64 value: a finite nonnegative value is tracked as an exact
fraction `num / den` (with `den` nonzero at every use site), plus the
non-finite results a zero divisor produces. -/
inductive F64 where
  | fin (num den : ℕ)
  | inf
  | nan
deriving DecidableEq, Repr

/-- The rational value of an idealized f64, `none` on the non-finite ones. -/
def F64.val : F64 → Option ℚ
  | .fin a b => some ((a : ℚ) / (b : ℚ))
  | .inf => none
  | .nan => none

/-- f64 division on nonnegative operands: a zero divisor yields infinity
(NaN when the dividend is also zero) instead of failing; a finite quotient
is kept exact as a fraction. -/
def fdiv : F64 → F64 → F64
  | .fin a b, .fin c d =>
      if c = 0 then (if a = 0 then .nan else .inf) else .fin (a * d) (b * c)
  | _, _ => .nan

/-- Zero-pads a number below 10^6 to six digits. -/
def pad6 (k : ℕ) : String :=
  let s := toString k
  String.mk (List.replicate (6 - s.length) '0') ++ s

/-- Rust `format!` with precision 6 applied to the nonnegative fraction
`a / b`: round to the nearest multiple of 10^-6, ties to even, and print
with exactly six digits after the point. -/
def fmt6q (a b : ℕ) : String :=
  let n := a * 1000000
  let whole := n / b
  let rem := n % b
  let micro :=
    if b < 2 * rem then whole + 1
    else if 2 * rem < b then whole
    else if whole % 2 = 0 then whole else whole + 1
  toString (micro / 1000000) ++ "." ++ pad6 (micro % 1000000)

/-- Rust `format!` with precision 6 on an idealized f64. -/
def fmt6 : F64 → String
  | .fin a b => fmt6q a b
  | .inf => "inf"
  | .nan => "NaN"

/-- Lowercase hexadecimal rendering of a 256-bit word, zero-padded to 64
digits, as `hex::encode` produces for the 32 bytes of an H256. -/
def hex64 (n : ℕ) : String :=
  let ds := Nat.toDigits 16 (n % 2 ^ 256)
  String.mk (List.replicate (64 - ds.length) '0' ++ ds)

/-- The request serialized for the Python executor (`PythonOrderRequest`). -/
structure PythonOrderRequest where
  token_id : String
  side : String
  price : String
  size : String
  order_type : String
deriving DecidableEq, Repr

/-- The response parsed from the Python executor (`PythonOrderResponse`). -/
structure PythonOrderResponse where
  success : Bool
  order_id : Option String
  error : Option String
deriving DecidableEq, Repr

/-- Outcome of the HTTP POST to the executor: transport failure, or a reply
with a status code, a body text, and (for the 2xx path) the result of
parsing the body as a `PythonOrderResponse` (`none` = malformed JSON). -/
inductive HttpOutcome where
  | sendFailed
  | reply (status : ℕ) (body : String) (parsed : Option PythonOrderResponse)
deriving DecidableEq, Repr

/-- Errors of the live submission path (anyhow messages in the source). -/
inductive SubmitError where
  | netError
  | backendRejected (status : ℕ) (body : String)
  | malformedResponse
  | orderRejected (reason : String)
deriving DecidableEq, Repr

/-- How one `submit_order` call ends: `Ok(())`, `Err(..)`, or a panic
(`U256::as_u128` on a value above 2^128 - 1 unwinds without returning). -/
inductive SubmitOutcome where
  | ok
  | err (e : SubmitError)
  | panic
deriving DecidableEq, Repr

/-- Trace of one `submit_order` call: its outcome, whether the HTTP POST to
the executor happened, the request that was built (none before
translation), and the emitted log lines. -/
structure SubmitTrace where
  result : SubmitOutcome
  network_call : Bool
  request : Option PythonOrderRequest
  logs : List String
deriving DecidableEq, Repr

/-- The string the source picks for an order's side: 0 is BUY, anything
else is SELL. -/
def sideStr (o : ClobOrder) : String :=
  if o.side = 0 then "BUY" else "SELL"

/-- Price and size computed by the live path from the maker/taker u128
values, scaled by the 6-decimal factor: BUY divides maker by taker, SELL
divides taker by maker; the size is the taker (BUY) or maker (SELL)
amount. -/
def price_size (o : ClobOrder) (m t : ℕ) : F64 × F64 :=
  if o.side = 0 then
    (fdiv (.fin m 1000000) (.fin t 1000000), .fin t 1000000)
  else
    (fdiv (.fin t 1000000) (.fin m 1000000), .fin m 1000000)

/-- `submit_order`: in read-only mode, log the order and return success
without any network call; otherwise convert the amounts, compute price and
size, build the `PythonOrderRequest`, POST it, and interpret the reply
(non-2xx status, malformed body, success flag, optional order id / error
message). -/
def submit_order (c : Client) (o : ClobOrder) (net : HttpOutcome) : SubmitTrace :=
  if c.read_only then
    let l0 := ["📝 [READ-ONLY] Would submit order:",
               "   Token: 0x" ++ hex64 o.token_id,
               "   Side: " ++ sideStr o]
    match as_u128 o.maker_amount with
    | none => ⟨.panic, false, none, l0⟩
    | some m =>
      let l1 := l0 ++ ["   Maker Amount: " ++ fmt6 (.fin m 1000000)]
      match as_u128 o.taker_amount with
      | none => ⟨.panic, false, none, l1⟩
      | some t =>
        ⟨.ok, false, none, l1 ++ ["   Taker Amount: " ++ fmt6 (.fin t 1000000)]⟩
  else
    match as_u128 o.maker_amount, as_u128 o.taker_amount with
    | some m, some t =>
      let ps := price_size o m t
      let req : PythonOrderRequest :=
        { token_id := "0x" ++ hex64 o.token_id
          side := sideStr o
          price := fmt6 ps.1
          size := fmt6 ps.2
          order_type := "FOK" }
      let l := ["📤 Sending order to Python executor...",
                "   Token: " ++ req.token_id.take 16,
                "   " ++ req.side ++ " price=" ++ req.price ++ " size=" ++ req.size]
      match net with
      | .sendFailed => ⟨.err .netError, true, some req, l⟩
      | .reply s body parsed =>
        if s < 200 ∨ 300 ≤ s then
          ⟨.err (.backendRejected s body), true, some req,
            l ++ ["❌ Python executor rejected order"]⟩
        else
          match parsed with
          | none => ⟨.err .malformedResponse, true, some req, l⟩
          | some r =>
            if r.success then
              match r.order_id with
              | some oid =>
                  ⟨.ok, true, some req, l ++ ["✅ Order placed! ID: " ++ oid]⟩
              | none =>
                  ⟨.ok, true, some req, l ++ ["✅ Order placed successfully!"]⟩
            else
              ⟨.err (.orderRejected (r.error.getD "Unknown error")), true, some req, l⟩
    | _, _ => ⟨.panic, false, none, []⟩

set_option maxRecDepth 40000

/-! ## Helper lemmas -/

/-- Conversion of a value below 2^128 succeeds. -/
theorem as_u128_of_lt {n : ℕ} (h : n < 2 ^ 128) : as_u128 n = some n := by
  unfold as_u128
  exact if_pos h

/-- When the balance is below the requirement, the readiness check stops at
the balance read with the insufficient-balance error. -/
theorem ensure_trading_ready_balance_lt (c : Client) (st : ChainState) (r : ℕ)
    (h : st.usdcBalance < r) :
    ensure_trading_ready c st r =
      ⟨.err (.insufficientBalance r st.usdcBalance), [.readBalance], st⟩ := by
  simp [ensure_trading_ready, ensure_balance, h]

/-- With sufficient balance and a contract proxy, the readiness check runs
the read-only Safe checks and leaves the chain state unchanged. -/
theorem ensure_trading_ready_contract (c : Client) (st : ChainState) (r : ℕ)
    (hb : ¬ st.usdcBalance < r) (hc : st.proxyCode ≠ []) :
    ensure_trading_ready c st r =
      ⟨(ensure_safe_checks st).1,
        [.readBalance, .readCode] ++ (ensure_safe_checks st).2, st⟩ := by
  have hc' : st.proxyCode.isEmpty = false := by
    simpa [List.isEmpty_iff] using hc
  simp [ensure_trading_ready, ensure_balance, proxy_is_contract, hb, hc']

/-- With sufficient balance and a plain-account proxy, the readiness check
succeeds, submitting an approve and/or setApprovalForAll transaction
exactly for the missing conditions, and the post state meets both
thresholds. -/
theorem ensure_trading_ready_plain (c : Client) (st : ChainState) (r : ℕ)
    (hb : ¬ st.usdcBalance < r) (hc : st.proxyCode = []) :
    ensure_trading_ready c st r =
      ⟨.ok,
        [.readBalance, .readCode, .readAllowance] ++
          (if MIN_ALLOWANCE ≤ st.usdcAllowance then [] else [.txApprove U256_MAX]) ++
          ([.readApproval] ++
            (if st.ctfApproved then [] else [.txSetApprovalForAll true])),
        { st with
            usdcAllowance :=
              if MIN_ALLOWANCE ≤ st.usdcAllowance then st.usdcAllowance else U256_MAX,
            ctfApproved := true }⟩ := by
  obtain ⟨bal, alw, app, code⟩ := st
  replace hb : ¬ bal < r := hb
  replace hc : code = [] := hc
  subst hc
  by_cases h1 : MIN_ALLOWANCE ≤ alw <;> by_cases h2 : app = true <;>
    simp [ensure_trading_ready, ensure_balance, proxy_is_contract,
      ensure_usdc_allowance, ensure_erc1155_approval, hb, h1, h2]

/-! ## Claim theorems -/

/-- C1: the claim says a live BUY order with taker_amount = 0 (or SELL with
maker_amount = 0) fails with DegenerateOrder before any network call and
the price computation never divides by zero.  The code has no such check:
at these inputs the f64 price computation divides by zero, the infinite
price is formatted into the request, the HTTP POST happens, and the call
even returns success when the backend accepts — evaluated here on both
failing inputs. -/
theorem C1_degenerate_order_reaches_backend :
    (submit_order ⟨false⟩ ⟨5, 0, 1000000, 0⟩ (.reply 200 "" (some ⟨true, none, none⟩)) =
      ⟨.ok, true, some ⟨"0x" ++ hex64 5, "BUY", "inf", "0.000000", "FOK"⟩,
        ["📤 Sending order to Python executor...",
         "   Token: " ++ ("0x" ++ hex64 5).take 16,
         "   BUY price=inf size=0.000000",
         "✅ Order placed successfully!"]⟩) ∧
    ((submit_order ⟨false⟩ ⟨5, 1, 0, 1000000⟩ (.reply 200 "" (some ⟨true, none, none⟩))).network_call = true ∧
     (submit_order ⟨false⟩ ⟨5, 1, 0, 1000000⟩ (.reply 200 "" (some ⟨true, none, none⟩))).result = .ok ∧
     (submit_order ⟨false⟩ ⟨5, 1, 0, 1000000⟩ (.reply 200 "" (some ⟨true, none, none⟩))).request.map
        PythonOrderRequest.price = some "inf") ∧
    fdiv (.fin 1000000 1000000) (.fin 0 1000000) = .inf := by
  decide

/-- C2: when the proxy balance is below the required amount,
ensure_trading_ready fails with the insufficient-balance error carrying
required and actual amounts, having performed only the balance read (no
allowance or approval check); when the balance suffices, the result is
never an insufficient-balance error. -/
theorem C2_balance_gate (c : Client) (st : ChainState) (r : ℕ) :
    (st.usdcBalance < r →
      (ensure_trading_ready c st r).result = .err (.insufficientBalance r st.usdcBalance) ∧
      (ensure_trading_ready c st r).ops = [.readBalance]) ∧
    (r ≤ st.usdcBalance →
      ∀ need actual,
        (ensure_trading_ready c st r).result ≠ .err (.insufficientBalance need actual)) := by
  constructor
  · intro h
    rw [ensure_trading_ready_balance_lt c st r h]
    exact ⟨rfl, rfl⟩
  · intro h need actual
    have hb : ¬ st.usdcBalance < r := Nat.not_lt.mpr h
    by_cases hc : st.proxyCode = []
    · rw [ensure_trading_ready_plain c st r hb hc]
      simp
    · rw [ensure_trading_ready_contract c st r hb hc]
      unfold ensure_safe_checks
      split <;> [simp; split <;> simp]

/-- C2 witness at a concrete short-balance state. -/
theorem C2_balance_gate_witness :
    (ensure_trading_ready ⟨false⟩ ⟨5, 0, false, []⟩ 10).result =
        .err (.insufficientBalance 10 5) ∧
      (ensure_trading_ready ⟨false⟩ ⟨5, 0, false, []⟩ 10).ops = [.readBalance] :=
  (C2_balance_gate ⟨false⟩ ⟨5, 0, false, []⟩ 10).1 (by decide)

/-- C3: when the proxy address holds non-empty bytecode,
ensure_trading_ready never performs a write transaction and leaves the
chain state unchanged; with sufficient balance it fails with the
allowance-missing error when the USDC allowance to the exchange is below
MIN_ALLOWANCE ($1 = 1_000_000 units), and with the approval-missing error
when the allowance is fine but the ERC-1155 approval flag is false. -/
theorem C3_contract_branch_read_only (c : Client) (st : ChainState) (r : ℕ)
    (hc : st.proxyCode ≠ []) :
    ((ensure_trading_ready c st r).ops.filter ChainOp.isWrite = [] ∧
     (ensure_trading_ready c st r).state = st) ∧
    (r ≤ st.usdcBalance → st.usdcAllowance < MIN_ALLOWANCE →
      (ensure_trading_ready c st r).result = .err .allowanceMissing) ∧
    (r ≤ st.usdcBalance → MIN_ALLOWANCE ≤ st.usdcAllowance → st.ctfApproved = false →
      (ensure_trading_ready c st r).result = .err .approvalMissing) := by
  by_cases hb : st.usdcBalance < r
  · rw [ensure_trading_ready_balance_lt c st r hb]
    refine ⟨⟨rfl, rfl⟩, fun h _ => absurd hb (Nat.not_lt.mpr h),
      fun h _ _ => absurd hb (Nat.not_lt.mpr h)⟩
  · rw [ensure_trading_ready_contract c st r hb hc]
    refine ⟨⟨?_, rfl⟩, fun _ h1 => ?_, fun _ h1 h2 => ?_⟩
    · unfold ensure_safe_checks
      split <;> [simp [ChainOp.isWrite]; split <;> simp [ChainOp.isWrite]]
    · simp [ensure_safe_checks, h1]
    · have h1' : ¬ st.usdcAllowance < MIN_ALLOWANCE := Nat.not_lt.mpr h1
      simp [ensure_safe_checks, h1', h2]

/-- C3 witness: a contract-proxy state with missing allowance fails the
allowance check without any write transaction. -/
theorem C3_contract_branch_read_only_witness :
    (ensure_trading_ready ⟨false⟩ ⟨50, 0, false, [96]⟩ 10).ops.filter ChainOp.isWrite = [] ∧
    (ensure_trading_ready ⟨false⟩ ⟨50, 0, false, [96]⟩ 10).result = .err .allowanceMissing :=
  ⟨(C3_contract_branch_read_only ⟨false⟩ ⟨50, 0, false, [96]⟩ 10 (by decide)).1.1,
   (C3_contract_branch_read_only ⟨false⟩ ⟨50, 0, false, [96]⟩ 10 (by decide)).2.1
     (by decide) (by decide)⟩

/-- C4 counterexample: the claim says simulate mode always returns success
regardless of the order's contents, but an order whose maker_amount does
not fit in 128 bits makes the read-only logging path panic in
`U256::as_u128`, so the call does not return success. -/
theorem C4_counterexample_simulate_panics :
    (submit_order ⟨true⟩ ⟨0, 0, 2 ^ 128, 0⟩ .sendFailed).result ≠ .ok ∧
    (submit_order ⟨true⟩ ⟨0, 0, 2 ^ 128, 0⟩ .sendFailed).result = .panic := by
  decide

/-- C4 (amended): with the read-only flag set, submit_order never performs
a network call, and it returns success for every order whose maker and
taker amounts fit in 128 bits (orders with a larger amount panic in the
as_u128 conversion used for logging, before any network interaction). -/
theorem C4_simulate_no_network (c : Client) (o : ClobOrder) (net : HttpOutcome)
    (hro : c.read_only = true) :
    (submit_order c o net).network_call = false ∧
    (o.maker_amount < 2 ^ 128 → o.taker_amount < 2 ^ 128 →
      (submit_order c o net).result = .ok) := by
  constructor
  · rcases hM : as_u128 o.maker_amount with _ | m <;>
      rcases hT : as_u128 o.taker_amount with _ | t <;>
      simp [submit_order, hro, hM, hT]
  · intro hm ht
    simp [submit_order, hro, as_u128_of_lt hm, as_u128_of_lt ht]

/-- C4 witness at a concrete order in read-only mode. -/
theorem C4_simulate_no_network_witness :
    (submit_order ⟨true⟩ ⟨5, 0, 150000, 100000⟩ .sendFailed).network_call = false ∧
    (submit_order ⟨true⟩ ⟨5, 0, 150000, 100000⟩ .sendFailed).result = .ok :=
  ⟨(C4_simulate_no_network ⟨true⟩ ⟨5, 0, 150000, 100000⟩ .sendFailed rfl).1,
   (C4_simulate_no_network ⟨true⟩ ⟨5, 0, 150000, 100000⟩ .sendFailed rfl).2
     (by decide) (by decide)⟩

/-- C5: the live translation pins the spec's exact 6-decimal strings —
BUY maker=150000 taker=100000 gives price "1.500000" and size "0.100000",
SELL maker=100000 taker=120000 gives price "1.200000" and size "0.100000" —
and in general a BUY prices at maker/taker with size taker, a SELL at
taker/maker with size maker, the 6-decimal scaling factors cancelling in
the price. -/
theorem C5_translation_pinned_strings :
    ((submit_order ⟨false⟩ ⟨5, 0, 150000, 100000⟩ .sendFailed).request =
      some ⟨"0x" ++ hex64 5, "BUY", "1.500000", "0.100000", "FOK"⟩) ∧
    ((submit_order ⟨false⟩ ⟨5, 1, 100000, 120000⟩ .sendFailed).request =
      some ⟨"0x" ++ hex64 5, "SELL", "1.200000", "0.100000", "FOK"⟩) ∧
    (∀ o : ClobOrder, o.maker_amount < 2 ^ 128 → o.taker_amount < 2 ^ 128 →
      ((o.side = 0 → o.taker_amount ≠ 0 →
        (price_size o o.maker_amount o.taker_amount).1.val =
          some ((o.maker_amount : ℚ) / (o.taker_amount : ℚ)) ∧
        (price_size o o.maker_amount o.taker_amount).2.val =
          some ((o.taker_amount : ℚ) / 1000000)) ∧
       (o.side ≠ 0 → o.maker_amount ≠ 0 →
        (price_size o o.maker_amount o.taker_amount).1.val =
          some ((o.taker_amount : ℚ) / (o.maker_amount : ℚ)) ∧
        (price_size o o.maker_amount o.taker_amount).2.val =
          some ((o.maker_amount : ℚ) / 1000000)))) := by
  refine ⟨by decide, by decide, fun o hm ht => ⟨fun hs htz => ?_, fun hs hmz => ?_⟩⟩
  · have htq : (o.taker_amount : ℚ) ≠ 0 := Nat.cast_ne_zero.mpr htz
    have hd : (1000000 : ℚ) * (o.taker_amount : ℚ) ≠ 0 :=
      mul_ne_zero (by norm_num) htq
    constructor
    · simp only [price_size, hs, ite_true, if_pos, fdiv, htz, ite_false, F64.val,
        Option.some.injEq]
      push_cast
      rw [div_eq_div_iff hd htq]
      ring
    · simp only [price_size, hs, ite_true, F64.val, Option.some.injEq]
      norm_num
  · have hmq : (o.maker_amount : ℚ) ≠ 0 := Nat.cast_ne_zero.mpr hmz
    have hd : (1000000 : ℚ) * (o.maker_amount : ℚ) ≠ 0 :=
      mul_ne_zero (by norm_num) hmq
    constructor
    · simp only [price_size, hs, ite_false, if_neg, fdiv, hmz, F64.val,
        Option.some.injEq]
      push_cast
      rw [div_eq_div_iff hd hmq]
      ring
    · simp only [price_size, hs, ite_false, if_neg, F64.val, Option.some.injEq]
      norm_num

/-- C5 witness: the general formulas applied at a concrete SELL order. -/
theorem C5_translation_pinned_strings_witness :
    (price_size ⟨1, 3, 2000000, 500000⟩ 2000000 500000).1.val =
      some (((500000 : ℕ) : ℚ) / ((2000000 : ℕ) : ℚ)) ∧
    (price_size ⟨1, 3, 2000000, 500000⟩ 2000000 500000).2.val =
      some (((2000000 : ℕ) : ℚ) / 1000000) :=
  (C5_translation_pinned_strings.2.2 ⟨1, 3, 2000000, 500000⟩ (by decide) (by decide)).2
    (by decide) (by decide)

/-- C6: on the live path, a non-2xx backend status yields the
backend-rejected error carrying the status and response body, and a 2xx
reply whose parsed JSON has success = false yields the order-rejected
error carrying the backend's error message, or the generic message
"Unknown error" when the error field is absent. -/
theorem C6_backend_rejections (o : ClobOrder) (s : ℕ) (body : String)
    (p : Option PythonOrderResponse) (r : PythonOrderResponse)
    (hm : o.maker_amount < 2 ^ 128) (ht : o.taker_amount < 2 ^ 128) :
    (¬ (200 ≤ s ∧ s < 300) →
      (submit_order ⟨false⟩ o (.reply s body p)).result = .err (.backendRejected s body)) ∧
    (200 ≤ s → s < 300 → r.success = false →
      (submit_order ⟨false⟩ o (.reply s body (some r))).result =
        .err (.orderRejected (r.error.getD "Unknown error"))) ∧
    (200 ≤ s → s < 300 → r.success = false → r.error = none →
      (submit_order ⟨false⟩ o (.reply s body (some r))).result =
        .err (.orderRejected "Unknown error")) := by
  refine ⟨fun h => ?_, fun h1 h2 h3 => ?_, fun h1 h2 h3 h4 => ?_⟩
  · have hcond : s < 200 ∨ 300 ≤ s := by omega
    simp [submit_order, as_u128_of_lt hm, as_u128_of_lt ht, hcond]
  · have hcond : ¬ (s < 200 ∨ 300 ≤ s) := by omega
    simp [submit_order, as_u128_of_lt hm, as_u128_of_lt ht, hcond, h3]
  · have hcond : ¬ (s < 200 ∨ 300 ≤ s) := by omega
    simp [submit_order, as_u128_of_lt hm, as_u128_of_lt ht, hcond, h3, h4]

/-- C6 witness: a concrete HTTP 500 reply and a concrete success=false
reply carrying "bad price". -/
theorem C6_backend_rejections_witness :
    (submit_order ⟨false⟩ ⟨5, 0, 150000, 100000⟩ (.reply 500 "boom" none)).result =
        .err (.backendRejected 500 "boom") ∧
    (submit_order ⟨false⟩ ⟨5, 0, 150000, 100000⟩
        (.reply 200 "" (some ⟨false, none, some "bad price"⟩))).result =
      .err (.orderRejected "bad price") :=
  ⟨(C6_backend_rejections ⟨5, 0, 150000, 100000⟩ 500 "boom" none
      ⟨false, none, some "bad price"⟩ (by decide) (by decide)).1 (by omega),
   (C6_backend_rejections ⟨5, 0, 150000, 100000⟩ 200 "" none
      ⟨false, none, some "bad price"⟩ (by decide) (by decide)).2.1
     (by omega) (by omega) rfl⟩

/-- C7 counterexample: the claim says a success reply carrying order_id
"abc" makes submit_order return the identifier "abc" to the caller; but
submit_order's return type is Result of unit — its returned value at that
reply is plain success, identical to the value returned for any other
identifier, so the caller cannot recover "abc" from it. -/
theorem C7_counterexample_id_not_returned :
    (submit_order ⟨false⟩ ⟨5, 0, 150000, 100000⟩
        (.reply 200 "ok" (some ⟨true, some "abc", none⟩))).result = .ok ∧
    (submit_order ⟨false⟩ ⟨5, 0, 150000, 100000⟩
        (.reply 200 "ok" (some ⟨true, some "abc", none⟩))).result =
      (submit_order ⟨false⟩ ⟨5, 0, 150000, 100000⟩
        (.reply 200 "ok" (some ⟨true, some "xyz", none⟩))).result := by
  decide

/-- C7 (amended): on a 2xx reply with success = true, submit_order returns
plain success (unit) to the caller; the backend-provided identifier is
only logged — "Order placed! ID: <id>" when present, a generic success
line otherwise. -/
theorem C7_success_logs_id (o : ClobOrder) (s : ℕ) (body : String)
    (r : PythonOrderResponse) (hm : o.maker_amount < 2 ^ 128)
    (ht : o.taker_amount < 2 ^ 128) (h1 : 200 ≤ s) (h2 : s < 300)
    (hs : r.success = true) :
    (submit_order ⟨false⟩ o (.reply s body (some r))).result = .ok ∧
    (∀ oid, r.order_id = some oid →
      ("✅ Order placed! ID: " ++ oid) ∈
        (submit_order ⟨false⟩ o (.reply s body (some r))).logs) ∧
    (r.order_id = none →
      "✅ Order placed successfully!" ∈
        (submit_order ⟨false⟩ o (.reply s body (some r))).logs) := by
  have hcond : ¬ (s < 200 ∨ 300 ≤ s) := by omega
  refine ⟨?_, fun oid hid => ?_, fun hid => ?_⟩
  · rcases hoid : r.order_id with _ | oid <;>
      simp [submit_order, as_u128_of_lt hm, as_u128_of_lt ht, hcond, hs, hoid]
  · simp [submit_order, as_u128_of_lt hm, as_u128_of_lt ht, hcond, hs, hid]
  · simp [submit_order, as_u128_of_lt hm, as_u128_of_lt ht, hcond, hs, hid]

/-- C7 witness: a concrete success reply carrying the identifier "abc". -/
theorem C7_success_logs_id_witness :
    (submit_order ⟨false⟩ ⟨5, 0, 150000, 100000⟩
        (.reply 200 "ok" (some ⟨true, some "abc", none⟩))).result = .ok ∧
    ("✅ Order placed! ID: " ++ "abc") ∈
      (submit_order ⟨false⟩ ⟨5, 0, 150000, 100000⟩
        (.reply 200 "ok" (some ⟨true, some "abc", none⟩))).logs :=
  ⟨(C7_success_logs_id ⟨5, 0, 150000, 100000⟩ 200 "ok" ⟨true, some "abc", none⟩
      (by decide) (by decide) (by omega) (by omega) rfl).1,
   (C7_success_logs_id ⟨5, 0, 150000, 100000⟩ 200 "ok" ⟨true, some "abc", none⟩
      (by decide) (by decide) (by omega) (by omega) rfl).2.1 "abc" rfl⟩

/-- C8: on the plain-account branch with sufficient balance, a run of
ensure_trading_ready succeeds and leaves a state whose allowance meets
MIN_ALLOWANCE and whose approval flag is set (balance and bytecode
untouched); and on any such remediated state, every invocation succeeds
without submitting any approve or setApprovalForAll transaction and
leaves the state unchanged. -/
theorem C8_plain_branch_idempotent (c c' : Client) (st : ChainState) (r r' : ℕ)
    (hplain : st.proxyCode = []) (hb : r ≤ st.usdcBalance) :
    ((ensure_trading_ready c st r).result = .ok ∧
     MIN_ALLOWANCE ≤ (ensure_trading_ready c st r).state.usdcAllowance ∧
     (ensure_trading_ready c st r).state.ctfApproved = true ∧
     (ensure_trading_ready c st r).state.usdcBalance = st.usdcBalance ∧
     (ensure_trading_ready c st r).state.proxyCode = []) ∧
    (∀ st2 : ChainState, st2.proxyCode = [] → r' ≤ st2.usdcBalance →
      MIN_ALLOWANCE ≤ st2.usdcAllowance → st2.ctfApproved = true →
      (ensure_trading_ready c' st2 r').result = .ok ∧
      (ensure_trading_ready c' st2 r').ops.filter ChainOp.isWrite = [] ∧
      (ensure_trading_ready c' st2 r').state = st2) := by
  have hmax : MIN_ALLOWANCE ≤ U256_MAX := by decide
  constructor
  · rw [ensure_trading_ready_plain c st r (Nat.not_lt.mpr hb) hplain]
    refine ⟨rfl, ?_, rfl, rfl, hplain⟩
    by_cases h1 : MIN_ALLOWANCE ≤ st.usdcAllowance <;> simp [h1, hmax]
  · intro st2 hp2 hb2 ha2 hap2
    rw [ensure_trading_ready_plain c' st2 r' (Nat.not_lt.mpr hb2) hp2]
    refine ⟨rfl, ?_, ?_⟩
    · simp [ha2, hap2, ChainOp.isWrite]
    · obtain ⟨bal, alw, app, code⟩ := st2
      replace hp2 : code = [] := hp2
      replace ha2 : MIN_ALLOWANCE ≤ alw := ha2
      replace hap2 : app = true := hap2
      subst hp2
      simp [ha2, hap2]

/-- C8 witness: a remediating first run on a bare plain-account state,
then a second run on its post state with no write transactions. -/
theorem C8_plain_branch_idempotent_witness :
    ((ensure_trading_ready ⟨false⟩ ⟨50, 0, false, []⟩ 10).result = .ok ∧
     MIN_ALLOWANCE ≤ (ensure_trading_ready ⟨false⟩ ⟨50, 0, false, []⟩ 10).state.usdcAllowance) ∧
    ((ensure_trading_ready ⟨false⟩ ⟨50, U256_MAX, true, []⟩ 10).result = .ok ∧
     (ensure_trading_ready ⟨false⟩ ⟨50, U256_MAX, true, []⟩ 10).ops.filter
        ChainOp.isWrite = []) :=
  ⟨⟨((C8_plain_branch_idempotent ⟨false⟩ ⟨false⟩ ⟨50, 0, false, []⟩ 10 10 rfl
        (by decide)).1).1,
    ((C8_plain_branch_idempotent ⟨false⟩ ⟨false⟩ ⟨50, 0, false, []⟩ 10 10 rfl
        (by decide)).1).2.1⟩,
   ⟨((C8_plain_branch_idempotent ⟨false⟩ ⟨false⟩ ⟨50, 0, false, []⟩ 10 10 rfl
        (by decide)).2 ⟨50, U256_MAX, true, []⟩ rfl (by decide) (by decide) rfl).1,
    ((C8_plain_branch_idempotent ⟨false⟩ ⟨false⟩ ⟨50, 0, false, []⟩ 10 10 rfl
        (by decide)).2 ⟨50, U256_MAX, true, []⟩ rfl (by decide) (by decide) rfl).2.1⟩⟩

/-- C9: the read-only flag does not influence ensure_trading_ready — its
whole trace (result, chain operations, post state) is identical for any
two flag values — and on the plain-account branch a missing allowance or
approval still triggers the corresponding write transaction even with the
flag set. -/
theorem C9_read_only_flag_only_affects_submit (ro ro' : Bool) (st : ChainState) (r : ℕ) :
    ensure_trading_ready ⟨ro⟩ st r = ensure_trading_ready ⟨ro'⟩ st r ∧
    (st.proxyCode = [] → r ≤ st.usdcBalance → st.usdcAllowance < MIN_ALLOWANCE →
      ChainOp.txApprove U256_MAX ∈ (ensure_trading_ready ⟨true⟩ st r).ops) ∧
    (st.proxyCode = [] → r ≤ st.usdcBalance → st.ctfApproved = false →
      ChainOp.txSetApprovalForAll true ∈ (ensure_trading_ready ⟨true⟩ st r).ops) := by
  refine ⟨rfl, fun hp hb ha => ?_, fun hp hb hap => ?_⟩
  · rw [ensure_trading_ready_plain ⟨true⟩ st r (Nat.not_lt.mpr hb) hp]
    simp [Nat.not_le.mpr ha]
  · rw [ensure_trading_ready_plain ⟨true⟩ st r (Nat.not_lt.mpr hb) hp]
    simp [hap]

/-- C9 witness: on a concrete plain-account state missing both conditions,
the read-only client still submits both write transactions. -/
theorem C9_read_only_flag_only_affects_submit_witness :
    ChainOp.txApprove U256_MAX ∈ (ensure_trading_ready ⟨true⟩ ⟨50, 0, false, []⟩ 10).ops ∧
    ChainOp.txSetApprovalForAll true ∈
      (ensure_trading_ready ⟨true⟩ ⟨50, 0, false, []⟩ 10).ops :=
  ⟨(C9_read_only_flag_only_affects_submit true true ⟨50, 0, false, []⟩ 10).2.1
      rfl (by decide) (by decide),
   (C9_read_only_flag_only_affects_submit true true ⟨50, 0, false, []⟩ 10).2.2
      rfl (by decide) rfl⟩

/-- C10: the order's side is an unvalidated integer — side 0 is rendered
BUY and every nonzero side (not only 1) is rendered SELL, in the simulate
log line, in the serialized live request, and in the price/size
computation, which then uses the SELL formula (taker/maker, size maker). -/
theorem C10_side_raw_integer (o : ClobOrder) (net : HttpOutcome)
    (hm : o.maker_amount < 2 ^ 128) (ht : o.taker_amount < 2 ^ 128) :
    (o.side = 0 → sideStr o = "BUY") ∧
    (o.side ≠ 0 →
      sideStr o = "SELL" ∧
      "   Side: SELL" ∈ (submit_order ⟨true⟩ o net).logs ∧
      (submit_order ⟨false⟩ o net).request.map PythonOrderRequest.side = some "SELL" ∧
      (price_size o o.maker_amount o.taker_amount).1 =
        fdiv (.fin o.taker_amount 1000000) (.fin o.maker_amount 1000000) ∧
      (price_size o o.maker_amount o.taker_amount).2 = .fin o.maker_amount 1000000) := by
  refine ⟨fun hs => by simp [sideStr, hs], fun hs => ?_⟩
  have hside : sideStr o = "SELL" := by simp [sideStr, hs]
  refine ⟨hside, ?_, ?_, ?_, ?_⟩
  · simp [submit_order, as_u128_of_lt hm, as_u128_of_lt ht, hside]
  · rcases net with _ | ⟨s, body, parsed⟩
    · simp [submit_order, as_u128_of_lt hm, as_u128_of_lt ht, hside]
    · by_cases hcond : s < 200 ∨ 300 ≤ s
      · simp [submit_order, as_u128_of_lt hm, as_u128_of_lt ht, hside, hcond]
      · rcases parsed with _ | r
        · simp [submit_order, as_u128_of_lt hm, as_u128_of_lt ht, hside, hcond]
        · by_cases hsucc : r.success
          · rcases hoid : r.order_id with _ | oid <;>
              simp [submit_order, as_u128_of_lt hm, as_u128_of_lt ht, hside,
                hcond, hsucc, hoid]
          · simp [submit_order, as_u128_of_lt hm, as_u128_of_lt ht, hside,
              hcond, hsucc]
  · simp [price_size, hs]
  · simp [price_size, hs]

/-- C10 witness at side value 2 (neither 0 nor 1). -/
theorem C10_side_raw_integer_witness :
    sideStr ⟨5, 2, 150000, 100000⟩ = "SELL" ∧
    (submit_order ⟨false⟩ ⟨5, 2, 150000, 100000⟩ .sendFailed).request.map
        PythonOrderRequest.side = some "SELL" :=
  ⟨((C10_side_raw_integer ⟨5, 2, 150000, 100000⟩ .sendFailed (by decide) (by decide)).2
      (by decide)).1,
   ((C10_side_raw_integer ⟨5, 2, 150000, 100000⟩ .sendFailed (by decide) (by decide)).2
      (by decide)).2.2.1⟩

end Oe
